import Mathlib

/-!
Shallow embedding of the peer-to-peer networking `Host` of
`util/network/src/host.rs` (parity), together with proofs about its
admission policy, connection lifecycle, stopping flag, network context,
discovery instantiation and key persistence.

Conventions of the embedding:
* machine integers (`usize`, `u32`, ports) are `Nat`; the quantities involved
  never overflow 64 bits in the source, and none of the verified properties
  depend on wrap-around;
* `Session`, `Discovery` and `NodeTable` live outside `host.rs`; they are
  opaque collaborators.  Their fields that `host.rs` reads (`id()`,
  `info.originated`, `is_ready()`, `expired()`, `done()`, `remote_addr()`,
  `have_capability`) are modelled as record fields, and the results of their
  externally driven operations (`Session::readable`, socket I/O) are supplied
  as explicit inputs to the functions that consume them;
* fallible operations and panics are modelled with `Option` (`none` = panic /
  I/O failure).
-/

namespace ParityHost

/-- 512-bit public key identifying a peer (abstract). -/
abbrev NodeId := Nat

/-- Protocol / handler id (`&'static str` in the source). -/
abbrev ProtocolId := String

/-- A TCP/UDP socket address (ip abstracted to a number plus the port,
which is the only component `host.rs` inspects via `address.port()`). -/
structure SocketAddr where
  ip : Nat
  port : Nat
deriving DecidableEq

/-- `NodeEndpoint { address, udp_port }` from `node_table.rs` (interface). -/
structure NodeEndpoint where
  address : SocketAddr
  udp_port : Nat
deriving DecidableEq

/-- `NodeEntry { id, endpoint }`: the gossipable record of a node. -/
structure NodeEntry where
  id : NodeId
  endpoint : NodeEndpoint
deriving DecidableEq

/-- A `Node` of the `NodeTable`: entry plus local failure bookkeeping.
Modelled from the spec: `node_table.rs` is not part of the sources, §3 of the
spec describes a `Node` as a `NodeEntry` plus failure counter and useless
flag. -/
structure Node where
  id : NodeId
  endpoint : NodeEndpoint
  failures : Nat
  useless : Bool
deriving DecidableEq

/-- `Node::new(id, endpoint)`: fresh node with clean bookkeeping. -/
def Node.new (id : NodeId) (endpoint : NodeEndpoint) : Node :=
  ⟨id, endpoint, 0, false⟩

/-- The `NodeTable` mapping, modelled as a list of `Node` records keyed by
`id`. -/
abbrev NodeTable := List Node

/-- `NodeTable::add_node`.  Modelled from the spec: idempotent on `NodeId`,
updates the endpoint if it differs, otherwise appends the new record. -/
def add_node (t : NodeTable) (n : Node) : NodeTable :=
  if t.any (fun m => m.id = n.id) then
    t.map (fun m => if m.id = n.id then { m with endpoint := n.endpoint } else m)
  else
    t ++ [n]

/-- `NodeTable::note_failure`.  Modelled from the spec: increments the failure
counter of the node. -/
def note_failure (t : NodeTable) (id : NodeId) : NodeTable :=
  t.map (fun m => if m.id = id then { m with failures := m.failures + 1 } else m)

/-- `NodeTable::mark_as_useless`.  Modelled from the spec: demotes the node so
it is not redialed. -/
def mark_as_useless (t : NodeTable) (id : NodeId) : NodeTable :=
  t.map (fun m => if m.id = id then { m with useless := true } else m)

/-- `NodeTable::clear_useless`.  Modelled from the spec: periodic purge of
useless nodes. -/
def clear_useless (t : NodeTable) : NodeTable :=
  t.filter (fun m => !m.useless)

/-- `NodeTable::nodes()`: NodeIds suitable for dialing.  Modelled from the
spec: yields ids of non-useless nodes (the dialing order refinement is not
load-bearing for any claim; the stored order stands in for it). -/
def table_nodes (t : NodeTable) : List NodeId :=
  (t.filter (fun m => !m.useless)).map (fun m => m.id)

/-- `NodeTable::unordered_entries()`.  Modelled from the spec: the entries of
all stored nodes. -/
def unordered_entries (t : NodeTable) : List NodeEntry :=
  t.map (fun m => ⟨m.id, m.endpoint⟩)

/-- `TableUpdates { added, removed }` emitted by `Discovery`. -/
structure TableUpdates where
  added : List NodeEntry
  removed : List NodeId
deriving DecidableEq

/-- `NodeTable::update(table_updates, reserved)`.  Modelled from the spec:
added set merged in; removed set removed unless present in reserved. -/
def table_update (t : NodeTable) (u : TableUpdates) (reserved : List NodeId) : NodeTable :=
  let t1 := u.added.foldl (fun acc e => add_node acc (Node.new e.id e.endpoint)) t
  t1.filter (fun m => ¬(m.id ∈ u.removed) ∨ m.id ∈ reserved)

/-- The host-side view of the UDP `Discovery` driver.  Modelled from the spec:
`discovery.rs` is not part of the sources; `host.rs` only ever seeds it with
node entries (`add_node`, `init_node_list`, `add_node_list`), so the model
records the entries it has been fed. -/
structure DiscoveryState where
  seen : List NodeEntry
deriving DecidableEq

/-- `Discovery::add_node(entry)`. -/
def discovery_add_node (d : DiscoveryState) (e : NodeEntry) : DiscoveryState :=
  ⟨d.seen ++ [e]⟩

/-- `NonReservedPeerMode` from `lib.rs` (interface): `Accept` or `Deny`. -/
inductive NonReservedPeerMode where
  | accept
  | deny
deriving DecidableEq

/-- `DisconnectReason` (from `session.rs`, interface): the reasons `host.rs`
itself uses. -/
inductive DisconnectReason where
  | clientQuit
  | disconnectRequested
  | tooManyPeers
  | pingTimeout
  | incompatibleProtocol
deriving DecidableEq

/-- The slab-resident `Session` handle, opaque to `Host` except for the
accessors `host.rs` calls.  `sid` is `info.id` (`Some` once the handshake
completes, or the dial target for outbound sessions); `ready`, `expired`,
`doneFlag` mirror `is_ready()`, `expired()`, `done()`; `caps` backs
`have_capability`; `keepAliveOk` is the result of `keep_alive(io)`;
`sendPacketErr` is the externally determined result of `send_packet`
(`none` = `Ok`). -/
structure Session where
  token : Nat
  sid : Option NodeId
  originated : Bool
  ready : Bool
  expired : Bool
  doneFlag : Bool
  caps : List ProtocolId
  remoteAddr : Option SocketAddr
  keepAliveOk : Bool
  sendPacketErr : Option Nat
deriving DecidableEq

/-- `Session::id()` — returns the session's node id once known. -/
def Session.id (s : Session) : Option NodeId := s.sid

/-- `CapabilityInfo { protocol, version, packet_count }`. -/
structure CapabilityInfo where
  protocol : ProtocolId
  version : Nat
  packet_count : Nat
deriving DecidableEq

/-- `ProtocolTimer { protocol, token }`. -/
structure ProtocolTimer where
  protocol : ProtocolId
  token : Nat
deriving DecidableEq

-- Token layout constants of host.rs.
def MAX_HANDSHAKES : Nat := 80
def MAX_SESSIONS : Nat := 1024 + MAX_HANDSHAKES
def MAX_HANDSHAKES_PER_ROUND : Nat := 32
def FIRST_SESSION : Nat := 0
def LAST_SESSION : Nat := FIRST_SESSION + MAX_SESSIONS - 1
def SYS_TIMER : Nat := LAST_SESSION + 1
def TCP_ACCEPT : Nat := SYS_TIMER + 1
def IDLE : Nat := SYS_TIMER + 2
def DISCOVERY : Nat := SYS_TIMER + 3
def DISCOVERY_REFRESH : Nat := SYS_TIMER + 4
def DISCOVERY_ROUND : Nat := SYS_TIMER + 5
def NODE_TABLE : Nat := SYS_TIMER + 6
def USER_TIMER : Nat := LAST_SESSION + 256

/-- The mutable state of `Host` that the verified properties observe: the
session slab, the `num_sessions` atomic, the reserved set, the `NodeTable`,
the optional `Discovery`, the handler registry, protocol timers and the
configuration fields `host.rs` reads. -/
structure HostState where
  sessions : List Session
  numSessions : Nat
  reserved : List NodeId
  nodeTable : NodeTable
  discovery : Option DiscoveryState
  handlers : List ProtocolId
  capabilities : List CapabilityInfo
  timers : List (Nat × ProtocolTimer)
  timerCounter : Nat
  minPeers : Nat
  maxPeers : Nat
  nonReservedMode : NonReservedPeerMode
  discoveryEnabled : Bool
  natEnabled : Bool
  configPublicAddress : Option SocketAddr
  localEndpoint : NodeEndpoint
  publicEndpoint : Option NodeEndpoint
  stopping : Bool
deriving DecidableEq

/-- `sessions.get(token)`: slab lookup by token. -/
def slabGet (sessions : List Session) (token : Nat) : Option Session :=
  sessions.find? (fun s => s.token = token)

/-- `Session::set_expired()` applied to the slab entry at `token` (sessions
are shared handles: expiring one mutates it in place in the slab). -/
def setExpired (sessions : List Session) (token : Nat) : List Session :=
  sessions.map (fun s => if s.token = token then { s with expired := true } else s)

/-- The internal ready transition of `Session::readable` (the slab shares the
handle, so the slab entry at `token` becomes ready). -/
def setReady (sessions : List Session) (token : Nat) : List Session :=
  sessions.map (fun s => if s.token = token then { s with ready := true } else s)

/-- `Host::have_session(id)`: linear scan comparing `e.lock().info.id`. -/
def have_session (st : HostState) (id : NodeId) : Bool :=
  st.sessions.any (fun s => s.sid = some id)

/-- `Host::session_count()`: reads the `num_sessions` atomic. -/
def session_count (st : HostState) : Nat :=
  st.numSessions

/-- `Host::connecting_to(id)`: linear scan comparing `e.lock().id()`. -/
def connecting_to (st : HostState) (id : NodeId) : Bool :=
  st.sessions.any (fun s => s.id = some id)

/-- `Host::handshake_count()`: slab entry count minus ready-session count. -/
def handshake_count (st : HostState) : Nat :=
  st.sessions.length - session_count st

/-- `Host::connect_peers`, lines 603-648: returns the list of NodeIds on
which `connect_peer` is invoked this tick (the dials issued; the subsequent
TCP connect of each dial is external I/O). -/
def connect_peers (st : HostState) : List NodeId :=
  -- host.rs 604-612: abort if no capabilities are registered yet
  if st.capabilities.isEmpty then []
  else
    let min_peers := st.minPeers
    let pin0 := st.nonReservedMode = NonReservedPeerMode.deny
    let sc := session_count st
    -- host.rs 616-624: early return / forced pinning
    let gate : Option Bool :=
      if sc ≥ min_peers + st.reserved.length then
        if st.reserved.all (fun n => have_session st n && connecting_to st n) then
          none
        else
          some true
      else
        some pin0
    match gate with
    | none => []
    | some pin =>
      let hc := handshake_count st
      let handshake_limit := MAX_HANDSHAKES - 16
      if hc ≥ handshake_limit then []
      else
        -- reserved nodes first; others only when not pinned
        let nodes := st.reserved ++ (if !pin then table_nodes st.nodeTable else [])
        (nodes.filter (fun id => !(have_session st id) && !(connecting_to st id))).take
          (min MAX_HANDSHAKES_PER_ROUND (handshake_limit - hc))

/-- The outcome of `Host::kill_connection`: the updated host state, the
protocols whose handlers get a `disconnected` callback, and whether the
stream is deregistered. -/
structure KillResult where
  st : HostState
  toDisconnect : List ProtocolId
  deregister : Bool
deriving DecidableEq

/-- `Host::kill_connection(token, io, remote)`, lines 840-878. -/
def kill_connection (st : HostState) (token : Nat) (remote : Bool) : KillResult :=
  if FIRST_SESSION ≤ token ∧ token ≤ LAST_SESSION then
    match slabGet st.sessions token with
    | some s =>
      -- host.rs 849-861: only a live (not yet expired) session is processed
      let notify := !s.expired && s.ready
      let toDisconnect :=
        if notify then st.handlers.filter (fun p => s.caps.contains p) else []
      let num' := if notify then st.numSessions - 1 else st.numSessions
      let failureId := if !s.expired then s.sid else none
      let sessions' := if !s.expired then setExpired st.sessions token else st.sessions
      let deregister := remote || s.doneFlag
      -- host.rs 865-869: note a failure for remote-initiated kills
      let nodeTable' :=
        match failureId with
        | some id => if remote then note_failure st.nodeTable id else st.nodeTable
        | none => st.nodeTable
      ⟨{ st with sessions := sessions', numSessions := num', nodeTable := nodeTable' },
        toDisconnect, deregister⟩
    | none => ⟨st, [], false⟩
  else ⟨st, [], false⟩

/-- One result of a call to `Session::readable(io, host)` inside the
`session_readable` loop (`SessionData` plus the error case, supplied as an
input trace since the `Session` state machine is external). -/
inductive SessionResult where
  /-- `Err(e)`; `incompatible` marks `Disconnect(IncompatibleProtocol)`. -/
  | err (incompatible : Bool)
  /-- `Ok(SessionData::Ready)` -/
  | ready
  /-- `Ok(SessionData::Packet { data, protocol, packet_id })` -/
  | packet (protocol : ProtocolId) (packetId : Nat) (data : List Nat)
  /-- `Ok(SessionData::Continue)` -/
  | more
  /-- `Ok(SessionData::None)` -/
  | idle
deriving DecidableEq

/-- Accumulator of the `session_readable` read loop: host state, the shared
session handle, and the pending `ready_data` / `packet_data` dispatch lists. -/
structure ReadAcc where
  st : HostState
  s : Session
  readyData : List ProtocolId
  packetData : List (ProtocolId × Nat × List Nat)
deriving DecidableEq

/-- Exit of the `session_readable` read loop. -/
inductive LoopOut where
  /-- loop broke (`SessionData::None` or error); `kill` mirrors the `kill`
  flag of host.rs -/
  | finished (acc : ReadAcc) (kill : Bool)
  /-- the `return` at line 784: `TooManyPeers` disconnect sent, nothing
  dispatched -/
  | noDispatch (acc : ReadAcc)
  /-- an `unwrap()` panicked (`s.id().unwrap()` with no id) -/
  | crashed
deriving DecidableEq

/-- The loop of `Host::session_readable`, lines 755-816, over the supplied
trace of `Session::readable` results. -/
def readLoop (token : Nat) : ReadAcc → List SessionResult → LoopOut
  | acc, [] => .finished acc false
  | acc, r :: rest =>
    match r with
    | .idle => .finished acc false
    | .more => readLoop token acc rest
    | .err incompatible =>
      -- host.rs 758-769
      let st' :=
        if incompatible then
          match acc.s.sid with
          | some id =>
            if id ∈ acc.st.reserved then acc.st
            else { acc.st with nodeTable := mark_as_useless acc.st.nodeTable id }
          | none => acc.st
        else acc.st
      .finished { acc with st := st' } true
    | .packet protocol packetId data =>
      -- host.rs 803-812: keep the packet only if a handler is registered
      if protocol ∈ acc.st.handlers then
        readLoop token { acc with packetData := acc.packetData ++ [(protocol, packetId, data)] } rest
      else
        readLoop token acc rest
    | .ready =>
      -- host.rs 770-801
      let s := { acc.s with ready := true }
      let st := { acc.st with
        numSessions := acc.st.numSessions + 1,
        sessions := setReady acc.st.sessions token }
      if s.originated then
        readLoop token { acc with
          st := st,
          s := s,
          readyData := acc.readyData ++ st.handlers.filter (fun p => s.caps.contains p) } rest
      else
        -- inbound admission, host.rs 772-796
        let sc := st.numSessions
        let afterLearn : Option HostState :=
          match s.remoteAddr, s.sid with
          | some addr, some id =>
            let entry : NodeEntry := ⟨id, ⟨addr, addr.port⟩⟩
            some { st with
              nodeTable := add_node st.nodeTable (Node.new entry.id entry.endpoint),
              discovery := st.discovery.map (fun d => discovery_add_node d entry) }
          | some _, none => none
          | none, _ => some st
        if sc ≥ st.maxPeers ∨ st.nonReservedMode = NonReservedPeerMode.deny then
          match s.sid with
          | none => .crashed
          | some id =>
            if id ∈ st.reserved then
              match afterLearn with
              | none => .crashed
              | some st2 =>
                readLoop token { acc with
                  st := st2,
                  s := s,
                  readyData := acc.readyData ++ st2.handlers.filter (fun p => s.caps.contains p) } rest
            else
              .noDispatch { acc with st := st, s := s }
        else
          match afterLearn with
          | none => .crashed
          | some st2 =>
            readLoop token { acc with
              st := st2,
              s := s,
              readyData := acc.readyData ++ st2.handlers.filter (fun p => s.caps.contains p) } rest

/-- Rust slice `&data[i..]`: panics (`none`) when `i` exceeds the length. -/
def sliceFrom (data : List Nat) (i : Nat) : Option (List Nat) :=
  if i ≤ data.length then some (data.drop i) else none

/-- The payloads handed to `handler.read`: `&data[1..]` for each collected
packet (host.rs 828-832). -/
def deliverPackets : List (ProtocolId × Nat × List Nat) → Option (List (ProtocolId × Nat × List Nat))
  | [] => some []
  | (p, pid, data) :: rest =>
    match sliceFrom data 1, deliverPackets rest with
    | some payload, some rest' => some ((p, pid, payload) :: rest')
    | _, _ => none

/-- Observable outcome of `Host::session_readable`: resulting host state, the
protocols receiving `connected`, the `(protocol, packet_id, payload)` triples
handed to `handler.read`, the disconnect issued on the inbound admission
path and whether the connection was killed. -/
structure ReadOut where
  st : HostState
  readyCalls : List ProtocolId
  delivered : List (ProtocolId × Nat × List Nat)
  disconnectSent : Option DisconnectReason
  killed : Bool
deriving DecidableEq

/-- `Host::session_readable(token, io)`, lines 748-833, over the trace of
`Session::readable` results.  `none` = the callback panicked. -/
def session_readable (st : HostState) (token : Nat) (results : List SessionResult) :
    Option ReadOut :=
  match slabGet st.sessions token with
  | none => some ⟨st, [], [], none, false⟩
  | some s =>
    match readLoop token ⟨st, s, [], []⟩ results with
    | .crashed => none
    | .noDispatch acc => some ⟨acc.st, [], [], some DisconnectReason.tooManyPeers, false⟩
    | .finished acc kill =>
      let st1 := if kill then (kill_connection acc.st token true).st else acc.st
      match deliverPackets acc.packetData with
      | none => none
      | some pkts => some ⟨st1, acc.readyData, pkts, none, kill⟩

/-! ### NetworkContext -/

/-- `NetworkContext`, lines 194-218: the access point handed to protocol
handlers.  `sessions` is the shared slab snapshot. -/
structure NetCtx where
  protocol : ProtocolId
  session : Option Session
  sessionId : Option Nat
  sessions : List Session
deriving DecidableEq

/-- `NetworkContext::new`, lines 205-218: `session_id` is derived from the
carried session. -/
def NetCtx.new (protocol : ProtocolId) (session : Option Session)
    (sessions : List Session) : NetCtx :=
  ⟨protocol, session, session.map (fun s => s.token), sessions⟩

/-- `NetworkContext::resolve_session`, lines 220-225. -/
def NetCtx.resolve_session (ctx : NetCtx) (peer : Nat) : Option Session :=
  match ctx.sessionId with
  | some id => if id = peer then ctx.session else slabGet ctx.sessions peer
  | none => slabGet ctx.sessions peer

/-- Result of `NetworkContext::send`: either the packet was forwarded to
`Session::send_packet` (recording the target session's token, the context
protocol, the packet id and the data), or `send_packet` returned an error
that `try!` propagates, or the peer was absent and the call only logged. -/
inductive SendResult where
  | sent (token : Nat) (protocol : ProtocolId) (packetId : Nat) (data : List Nat)
  | errored (e : Nat)
  | peerAbsent
deriving DecidableEq

/-- Whether the Rust `send` returned `Ok(())`. -/
def sendIsOk : SendResult → Bool
  | .errored _ => false
  | _ => true

/-- `NetworkContext::send(peer, packet_id, data)`, lines 228-236. -/
def NetCtx.send (ctx : NetCtx) (peer : Nat) (packetId : Nat) (data : List Nat) :
    SendResult :=
  match ctx.resolve_session peer with
  | some s =>
    match s.sendPacketErr with
    | some e => .errored e
    | none => .sent s.token ctx.protocol packetId data
  | none => .peerAbsent

/-- `NetworkContext::respond(packet_id, data)`, lines 239-242.  `none` = the
`assert!` (or the `session_id` unwrap) panicked. -/
def NetCtx.respond (ctx : NetCtx) (packetId : Nat) (data : List Nat) :
    Option SendResult :=
  match ctx.session with
  | none => none
  | some _ =>
    match ctx.sessionId with
    | none => none
    | some id => some (ctx.send id packetId data)

/-! ### Host construction and the public interface -/

/-- The configuration fields of `NetworkConfiguration` that the modelled
state machine reads.  Boot and reserved nodes are carried as parsed `Node`
records (`Node::from_str` lives outside `host.rs`). -/
structure HostConfig where
  bootNodes : List Node
  reservedNodes : List Node
  minPeers : Nat
  maxPeers : Nat
  nonReservedMode : NonReservedPeerMode
  discoveryEnabled : Bool
  natEnabled : Bool
  publicAddress : Option SocketAddr
deriving DecidableEq

/-- `Host::add_reserved_node` state effect, lines 432-444 (the reserved set
is a `HashSet`, hence the dedup on insert). -/
def add_reserved_node (st : HostState) (n : Node) : HostState :=
  { st with
    reserved := if n.id ∈ st.reserved then st.reserved else st.reserved ++ [n.id],
    nodeTable := add_node st.nodeTable (Node.new n.id n.endpoint) }

/-- `Host::new`, lines 351-416: the initial host state.  Key selection,
socket binding and endpoint computation are external I/O; `localEndpoint` is
the computed local endpoint.  Discovery is NOT created here. -/
def host_new (config : HostConfig) (localEndpoint : NodeEndpoint) : HostState :=
  let base : HostState :=
    { sessions := []
      numSessions := 0
      reserved := []
      nodeTable := []
      discovery := none
      handlers := []
      capabilities := []
      timers := []
      timerCounter := USER_TIMER
      minPeers := config.minPeers
      maxPeers := config.maxPeers
      nonReservedMode := config.nonReservedMode
      discoveryEnabled := config.discoveryEnabled
      natEnabled := config.natEnabled
      configPublicAddress := config.publicAddress
      localEndpoint := localEndpoint
      publicEndpoint := none
      stopping := false }
  let afterBoot :=
    config.bootNodes.foldl (fun st n => { st with nodeTable := add_node st.nodeTable n }) base
  config.reservedNodes.foldl add_reserved_node afterBoot

/-- A stream or timer registration issued against the reactor. -/
inductive Registration where
  | stream (token : Nat)
  | timer (token : Nat) (delayMs : Nat)
deriving DecidableEq

/-- `Host::init_public_interface`, lines 513-565.  `selected` is the result
of `select_public_address` (external interface scan) and `natResult` the
result of `map_external_address` (UPnP), both external I/O.  Returns the new
state and the registrations issued. -/
def init_public_interface (st : HostState) (selected : SocketAddr)
    (natResult : Option NodeEndpoint) : HostState × List Registration :=
  -- host.rs 514-516: idempotent — nothing to do once the endpoint is known
  if st.publicEndpoint.isSome then (st, [])
  else
    let le := st.localEndpoint
    -- host.rs 519-536: determine the public endpoint
    let publicEndpoint : NodeEndpoint :=
      match st.configPublicAddress with
      | none =>
        let guess : NodeEndpoint := ⟨selected, le.udp_port⟩
        if st.natEnabled then
          match natResult with
          | some endpoint => endpoint
          | none => guess
        else guess
      | some addr => ⟨addr, le.udp_port⟩
    let st1 := { st with publicEndpoint := some publicEndpoint }
    -- host.rs 544-561: create Discovery only when enabled and mode is Accept
    if st1.discoveryEnabled = true ∧ st1.nonReservedMode = NonReservedPeerMode.accept then
      let d : DiscoveryState := ⟨unordered_entries st1.nodeTable⟩
      ({ st1 with discovery := some d },
        [Registration.stream DISCOVERY,
         Registration.timer DISCOVERY_REFRESH 7200,
         Registration.timer DISCOVERY_ROUND 300,
         Registration.timer NODE_TABLE 300000,
         Registration.stream TCP_ACCEPT])
    else
      (st1,
        [Registration.timer NODE_TABLE 300000,
         Registration.stream TCP_ACCEPT])

/-! ### Event dispatch callbacks -/

/-- `Host::update_nodes`, lines 880-898: kill sessions of removed nodes,
then apply the updates to the node table (reserved nodes survive). -/
def update_nodes (st : HostState) (u : TableUpdates) : HostState :=
  let toRemove :=
    (st.sessions.filter (fun s =>
      match s.id with
      | some id => u.removed.contains id
      | none => false)).map (fun s => s.token)
  let st1 := toRemove.foldl (fun acc t => (kill_connection acc t false).st) st
  { st1 with nodeTable := table_update st1.nodeTable u st1.reserved }

/-- `Host::keep_alive`, lines 588-601: sessions whose `keep_alive(io)`
returned false are disconnected with `PingTimeout` and killed. -/
def keep_alive (st : HostState) : HostState :=
  let toKill := (st.sessions.filter (fun s => !s.keepAliveOk)).map (fun s => s.token)
  toKill.foldl (fun acc t => (kill_connection acc t true).st) st

/-- `Host::maintain_network`, lines 567-570: keep alive then connect peers.
Returns the state after the keep-alive kills together with the dials issued
by `connect_peers` (establishing the dialed connections is external I/O). -/
def maintain_network (st : HostState) : HostState × List NodeId :=
  let st1 := keep_alive st
  (st1, connect_peers st1)

/-- `Host::create_connection`, lines 688-709, slab capacity behaviour: the
constructed session (external to host.rs) is inserted unless the slab is
full, in which case the connection is silently dropped. -/
def create_connection (st : HostState) (s : Session) : HostState :=
  if st.sessions.length ≥ MAX_SESSIONS then st
  else { st with sessions := st.sessions ++ [s] }

/-- `Host::accept`, lines 711-726: drain the listener, creating a connection
per accepted socket (`accepted` is the externally supplied drain result). -/
def accept (st : HostState) (accepted : List Session) : HostState :=
  accepted.foldl create_connection st

/-- External inputs consumed by one dispatched event: the trace of
`Session::readable` results and the `TableUpdates` produced by
`discovery.readable()` / `discovery.round()`. -/
structure EventInputs where
  sessionResults : List SessionResult
  discoveryReadUpdates : Option TableUpdates
  discoveryRoundUpdates : Option TableUpdates
  accepted : List Session
deriving DecidableEq

/-- `IoHandler::stream_hup`, lines 916-922.  NOTE: unlike the other
callbacks, the source has no check of the `stopping` flag here. -/
def stream_hup (st : HostState) (stream : Nat) : HostState :=
  if FIRST_SESSION ≤ stream ∧ stream ≤ LAST_SESSION then
    (kill_connection st stream true).st
  else st

/-- `IoHandler::stream_readable`, lines 924-939.  `none` = panic (unknown
token, a missing discovery, or a panic inside `session_readable`). -/
def stream_readable (st : HostState) (stream : Nat) (inp : EventInputs) :
    Option HostState :=
  if st.stopping then some st
  else if FIRST_SESSION ≤ stream ∧ stream ≤ LAST_SESSION then
    (session_readable st stream inp.sessionResults).map (fun out => out.st)
  else if stream = DISCOVERY then
    match st.discovery with
    | none => none
    | some _ =>
      match inp.discoveryReadUpdates with
      | some u => some (update_nodes st u)
      | none => some st
  else if stream = TCP_ACCEPT then some (accept st inp.accepted)
  else none

/-- `IoHandler::stream_writable`, lines 941-952.  `session_writable` only
drives the session's own write buffer (external) and never touches the slab
or node table; `none` = panic (unknown token / missing discovery). -/
def stream_writable (st : HostState) (stream : Nat) : Option HostState :=
  if st.stopping then some st
  else if FIRST_SESSION ≤ stream ∧ stream ≤ LAST_SESSION then some st
  else if stream = DISCOVERY then
    match st.discovery with
    | none => none
    | some _ => some st
  else none

/-- `IoHandler::timeout`, lines 954-987.  `none` = panic (a discovery timer
fired with no discovery present). -/
def timeout (st : HostState) (token : Nat) (inp : EventInputs) : Option HostState :=
  if st.stopping then some st
  else if token = IDLE then some (maintain_network st).1
  else if FIRST_SESSION ≤ token ∧ token ≤ LAST_SESSION then
    some (kill_connection st token true).st
  else if token = DISCOVERY_REFRESH then
    match st.discovery with
    | none => none
    | some _ => some st
  else if token = DISCOVERY_ROUND then
    match st.discovery with
    | none => none
    | some _ =>
      match inp.discoveryRoundUpdates with
      | some u => some (update_nodes st u)
      | none => some st
  else if token = NODE_TABLE then
    some { st with nodeTable := clear_useless st.nodeTable }
  else
    -- user timer: the protocol handler's timeout callback runs, which has no
    -- direct effect on the host state
    some st

/-- `NetworkIoMessage` control messages, lines 144-171.  `AddHandler` carries
the protocol and versions (the handler object itself is external);
`InitPublicInterface` carries the external address-selection results. -/
inductive IoMsg where
  | addHandler (protocol : ProtocolId) (versions : List Nat)
  | addTimer (protocol : ProtocolId) (token : Nat) (delay : Nat)
  | initPublicInterface (selected : SocketAddr) (natResult : Option NodeEndpoint)
  | disconnectPeer (peer : Nat)
  | disablePeer (peer : Nat)
  | networkStarted
deriving DecidableEq

/-- `IoHandler::message`, lines 989-1046. -/
def message (st : HostState) (msg : IoMsg) : HostState :=
  if st.stopping then st
  else
    match msg with
    | .addHandler protocol versions =>
      { st with
        handlers := if protocol ∈ st.handlers then st.handlers else st.handlers ++ [protocol],
        capabilities :=
          st.capabilities ++ versions.map (fun v => CapabilityInfo.mk protocol v 0) }
    | .addTimer protocol token _delay =>
      { st with
        timers := st.timers ++ [(st.timerCounter, ProtocolTimer.mk protocol token)],
        timerCounter := st.timerCounter + 1 }
    | .initPublicInterface selected natResult =>
      (init_public_interface st selected natResult).1
    | .disconnectPeer peer =>
      (kill_connection st peer false).st
    | .disablePeer peer =>
      let st1 :=
        match slabGet st.sessions peer with
        | some s =>
          match s.id with
          | some id => { st with nodeTable := mark_as_useless st.nodeTable id }
          | none => st
        | none => st
      (kill_connection st1 peer false).st
    | .networkStarted => st

/-! ### Key persistence -/

/-- A filesystem restricted to what `save_key` / `load_key` touch: a map
from paths (component lists) to file contents. -/
def Fs := List String → Option String

/-- Write a file (the directory is assumed writable, matching the claim's
hypothesis; `save_key` swallows I/O errors). -/
def fsWrite (fs : Fs) (p : List String) (content : String) : Fs :=
  fun q => if q = p then some content else fs q

/-- Hex digit characters, lowercase (`0`..`9`, `a`..`f`). -/
def hexChar (n : Nat) : Char :=
  if n < 10 then Char.ofNat (48 + n) else Char.ofNat (87 + n)

/-- Value of a hex digit character (both cases accepted). -/
def hexVal (c : Char) : Option Nat :=
  if 48 ≤ c.toNat ∧ c.toNat ≤ 57 then some (c.toNat - 48)
  else if 97 ≤ c.toNat ∧ c.toNat ≤ 102 then some (c.toNat - 87)
  else if 65 ≤ c.toNat ∧ c.toNat ≤ 70 then some (c.toNat - 55)
  else none

/-- Fixed-width big-endian hex digits of `v` (`k` digits, lowercase). -/
def toHexFixed : Nat → Nat → List Char
  | 0, _ => []
  | k + 1, v => toHexFixed k (v / 16) ++ [hexChar (v % 16)]

/-- `Secret::hex()` of a 256-bit secret.  Modelled from the spec: lowercase
hex, 64 characters, no newline (`ethkey` is outside the sources). -/
def secretHex (s : Nat) : String :=
  ⟨toHexFixed 64 s⟩

/-- Parse a run of hex characters (most significant first). -/
def parseHexChars (cs : List Char) : Option Nat :=
  cs.foldl
    (fun acc c =>
      match acc, hexVal c with
      | some a, some d => some (a * 16 + d)
      | _, _ => none)
    (some 0)

/-- `Secret::from_str`.  Modelled from the spec: exactly 64 hex characters
parse to the 256-bit secret (`ethkey` is outside the sources). -/
def secretFromStr (str : String) : Option Nat :=
  if str.data.length = 64 then parseHexChars str.data else none

/-- `save_key(path, key)`, lines 1091-1112: writes the hex encoding of the
secret to `<path>/key`. -/
def save_key (fs : Fs) (path : List String) (secret : Nat) : Fs :=
  fsWrite fs (path ++ ["key"]) (secretHex secret)

/-- `load_key(path)`, lines 1114-1139: reads `<path>/key` and parses it. -/
def load_key (fs : Fs) (path : List String) : Option Nat :=
  match fs (path ++ ["key"]) with
  | none => none
  | some content => secretFromStr content

/-! ### Concrete states used to instantiate the theorems -/

/-- A freshly constructed host with default configuration (25/50 peers,
Accept mode), no sessions and an empty table. -/
def baseState : HostState :=
  { sessions := []
    numSessions := 0
    reserved := []
    nodeTable := []
    discovery := none
    handlers := []
    capabilities := []
    timers := []
    timerCounter := USER_TIMER
    minPeers := 25
    maxPeers := 50
    nonReservedMode := NonReservedPeerMode.accept
    discoveryEnabled := true
    natEnabled := true
    configPublicAddress := none
    localEndpoint := ⟨⟨0, 30304⟩, 30304⟩
    publicEndpoint := none
    stopping := false }

/-- The RESERVED-ONLY scenario of the spec: `min_peers = 0`, mode `Deny`,
reserved = {node 1}, nodes 1 and 2 known, neither connected. -/
def reservedOnlyState : HostState :=
  { baseState with
    capabilities := [⟨"eth", 62, 0⟩]
    reserved := [1]
    nodeTable := [Node.new 1 ⟨⟨10, 30303⟩, 30303⟩, Node.new 2 ⟨⟨11, 30303⟩, 30303⟩]
    minPeers := 0
    nonReservedMode := NonReservedPeerMode.deny }

/-- A ready, not yet expired session at token 0 for node 7, capability
`eth`. -/
def readySession : Session :=
  ⟨0, some 7, false, true, false, false, ["eth"], none, true, none⟩

/-- A host that has been stopped (`stopping` set) while the ready session
at token 0 is still in the slab. -/
def stoppedState : HostState :=
  { baseState with
    stopping := true
    handlers := ["eth"]
    sessions := [readySession]
    numSessions := 1 }

/-- A host with the ready `eth` session at token 0 in the slab (not
stopped): the kill_connection scenario. -/
def killState : HostState :=
  { baseState with
    handlers := ["eth"]
    sessions := [readySession]
    numSessions := 1 }

/-- An inbound session at token 3 that has just completed its handshake with
node 9 at address (77, 3030). -/
def inboundSession : Session :=
  ⟨3, some 9, false, false, false, false, ["eth"], some ⟨77, 3030⟩, true, none⟩

/-- A host in Deny mode about to process the inbound ready transition of the
non-reserved `inboundSession`. -/
def denyState : HostState :=
  { baseState with
    handlers := ["eth"]
    sessions := [inboundSession]
    nonReservedMode := NonReservedPeerMode.deny }

/-- The same host in Accept mode with a Discovery instance present. -/
def acceptState : HostState :=
  { baseState with
    handlers := ["eth"]
    sessions := [inboundSession]
    discovery := some ⟨[]⟩ }

/-- A context created outside any session callback over an empty slab. -/
def sessionlessCtx : NetCtx :=
  NetCtx.new "eth" none []

/-- A context created for a callback of `readySession`. -/
def sessionCtx : NetCtx :=
  NetCtx.new "eth" (some readySession) [readySession]

/-- Event inputs with nothing pending. -/
def quietInputs : EventInputs :=
  ⟨[], none, none, []⟩

/-! ## Theorems -/

/-- Helper: members of the dial candidate list taken while pinned are
reserved. -/
theorem mem_reserved_of_mem_pinned_take (st : HostState) (k : Nat) (id : NodeId)
    (h : id ∈ (List.filter (fun i => !(have_session st i) && !(connecting_to st i))
        st.reserved).take k) :
    id ∈ st.reserved :=
  List.mem_of_mem_filter (List.take_subset k _ h)

/-- Claim C1: in `connect_peers`, if the session count is at least
`min_peers + |reserved|` and all reserved nodes are connected, no dial is
issued; when dialing is pinned to reserved nodes — which happens whenever
`non_reserved_mode` is `Deny`, and also when the count threshold is reached
with some reserved node not connected — every dial issued targets a reserved
NodeId.  In the concrete RESERVED-ONLY scenario (min_peers = 0, Deny,
reserved = {1}, table = {1, 2}, nothing connected) exactly one dial is
issued and it targets node 1. -/
theorem connect_peers_reserved_pinning (st : HostState) :
    (session_count st ≥ st.minPeers + st.reserved.length →
      st.reserved.all (fun n => have_session st n && connecting_to st n) = true →
      connect_peers st = []) ∧
    ((st.nonReservedMode = NonReservedPeerMode.deny ∨
        (session_count st ≥ st.minPeers + st.reserved.length ∧
          ¬ st.reserved.all (fun n => have_session st n && connecting_to st n) = true)) →
      ∀ id ∈ connect_peers st, id ∈ st.reserved) ∧
    connect_peers reservedOnlyState = [1] := by
  refine ⟨?_, ?_, by decide⟩
  · intro h1 h2
    by_cases hcap : st.capabilities.isEmpty = true
    · simp [connect_peers, hcap]
    · simp [connect_peers, hcap, h1, h2]
  · intro hpin id hid
    by_cases hcap : st.capabilities.isEmpty = true
    · simp [connect_peers, hcap] at hid
    · by_cases hge : session_count st ≥ st.minPeers + st.reserved.length
      · by_cases hall :
          st.reserved.all (fun n => have_session st n && connecting_to st n) = true
        · simp [connect_peers, hcap, hge, hall] at hid
        · simp only [connect_peers, hcap, Bool.false_eq_true, if_false, hge, if_pos,
            hall, if_true] at hid
          by_cases hhc : handshake_count st ≥ MAX_HANDSHAKES - 16
          · simp [hhc] at hid
          · simp [hhc] at hid
            exact mem_reserved_of_mem_pinned_take st _ id (by simpa using hid)
      · have hdeny : st.nonReservedMode = NonReservedPeerMode.deny := by
          rcases hpin with h | ⟨h1, _⟩
          · exact h
          · exact absurd h1 hge
        simp only [connect_peers, hcap, Bool.false_eq_true, if_false, hge, hdeny] at hid
        by_cases hhc : handshake_count st ≥ MAX_HANDSHAKES - 16
        · simp [hhc] at hid
        · simp [hhc] at hid
          exact mem_reserved_of_mem_pinned_take st _ id (by simpa using hid)

/-- Claim C1 witness: the pinning branch applied to the concrete
RESERVED-ONLY state. -/
theorem connect_peers_reserved_pinning_witness :
    reservedOnlyState.nonReservedMode = NonReservedPeerMode.deny ∧
    ∀ id ∈ connect_peers reservedOnlyState, id ∈ reservedOnlyState.reserved :=
  ⟨by decide,
    (connect_peers_reserved_pinning reservedOnlyState).2.1 (Or.inl (by decide))⟩

/-- Claim C3: `connect_peers` issues zero dials when the pending handshake
count (slab size minus ready-session count) is at least
`MAX_HANDSHAKES - 16`, and never more than
`min(MAX_HANDSHAKES_PER_ROUND, (MAX_HANDSHAKES - 16) - handshake_count)`
dials in one tick. -/
theorem connect_peers_dial_bound (st : HostState) :
    (handshake_count st ≥ MAX_HANDSHAKES - 16 → connect_peers st = []) ∧
    (connect_peers st).length ≤
      min MAX_HANDSHAKES_PER_ROUND (MAX_HANDSHAKES - 16 - handshake_count st) := by
  constructor
  · intro h
    by_cases hcap : st.capabilities.isEmpty = true
    · simp [connect_peers, hcap]
    · by_cases hge : session_count st ≥ st.minPeers + st.reserved.length
      · by_cases hall :
          st.reserved.all (fun n => have_session st n && connecting_to st n) = true
        · simp [connect_peers, hcap, hge, hall]
        · simp [connect_peers, hcap, hge, hall, h]
      · simp [connect_peers, hcap, hge, h]
  · by_cases hcap : st.capabilities.isEmpty = true
    · simp [connect_peers, hcap]
    · by_cases hge : session_count st ≥ st.minPeers + st.reserved.length
      · by_cases hall :
          st.reserved.all (fun n => have_session st n && connecting_to st n) = true
        · simp [connect_peers, hcap, hge, hall]
        · by_cases hhc : handshake_count st ≥ MAX_HANDSHAKES - 16
          · simp [connect_peers, hcap, hge, hall, hhc]
          · simp only [connect_peers, hcap, Bool.false_eq_true, if_false, hge, if_pos,
              hall, if_true, hhc]
            exact List.length_take_le _ _
      · by_cases hhc : handshake_count st ≥ MAX_HANDSHAKES - 16
        · simp [connect_peers, hcap, hge, hhc]
        · simp only [connect_peers, hcap, Bool.false_eq_true, if_false, hge, hhc, if_false]
          exact List.length_take_le _ _

/-- Claim C3 witness: the zero-dial branch at a host whose slab is saturated
with pending handshakes. -/
theorem connect_peers_dial_bound_witness :
    handshake_count
        { reservedOnlyState with
          sessions := List.replicate 64 ⟨0, none, true, false, false, false, [], none, true, none⟩ } ≥
      MAX_HANDSHAKES - 16 ∧
    connect_peers
        { reservedOnlyState with
          sessions := List.replicate 64 ⟨0, none, true, false, false, false, [], none, true, none⟩ } = [] :=
  ⟨by decide,
    (connect_peers_dial_bound
        { reservedOnlyState with
          sessions := List.replicate 64 ⟨0, none, true, false, false, false, [], none, true, none⟩ }).1
      (by decide)⟩

/-- Helper: expiring the slab entry at a token is visible through `slabGet`. -/
theorem slabGet_setExpired (l : List Session) (tok : Nat) :
    slabGet (setExpired l tok) tok =
      (slabGet l tok).map (fun s => { s with expired := true }) := by
  induction l with
  | nil => rfl
  | cons h t ih =>
    simp only [slabGet, setExpired] at ih ⊢
    by_cases hh : h.token = tok
    · rw [List.map_cons, if_pos hh]
      rw [List.find?_cons_of_pos _ (by simp [hh]), List.find?_cons_of_pos _ (by simp [hh])]
      simp
    · rw [List.map_cons, if_neg hh]
      rw [List.find?_cons_of_neg _ (by simp [hh]), List.find?_cons_of_neg _ (by simp [hh])]
      exact ih

/-- Helper: a token with no live (present, unexpired) session is a
`kill_connection` no-op for notification and the session counter. -/
theorem kill_connection_dead_token (st : HostState) (token : Nat) (remote : Bool)
    (h : ¬(FIRST_SESSION ≤ token ∧ token ≤ LAST_SESSION) ∨
      slabGet st.sessions token = none ∨
      ∃ s, slabGet st.sessions token = some s ∧ s.expired = true) :
    (kill_connection st token remote).toDisconnect = [] ∧
    (kill_connection st token remote).st.numSessions = st.numSessions := by
  unfold kill_connection
  rcases h with hr | hnone | ⟨s, hget, hexp⟩
  · rw [if_neg hr]
    exact ⟨rfl, rfl⟩
  · by_cases hr : FIRST_SESSION ≤ token ∧ token ≤ LAST_SESSION
    · rw [if_pos hr]
      simp [hnone]
    · rw [if_neg hr]
      exact ⟨rfl, rfl⟩
  · by_cases hr : FIRST_SESSION ≤ token ∧ token ≤ LAST_SESSION
    · rw [if_pos hr]
      simp [hget, hexp]
    · rw [if_neg hr]
      exact ⟨rfl, rfl⟩

/-- Helper: after `kill_connection`, the killed token carries no live
session any more. -/
theorem kill_connection_expires (st : HostState) (token : Nat) (remote : Bool) :
    ¬(FIRST_SESSION ≤ token ∧ token ≤ LAST_SESSION) ∨
    slabGet (kill_connection st token remote).st.sessions token = none ∨
    ∃ s, slabGet (kill_connection st token remote).st.sessions token = some s ∧
      s.expired = true := by
  unfold kill_connection
  by_cases hr : FIRST_SESSION ≤ token ∧ token ≤ LAST_SESSION
  · rw [if_pos hr]
    cases hfind : slabGet st.sessions token with
    | none => simp [hfind]
    | some s =>
      by_cases hexp : s.expired = true
      · simp [hfind, hexp]
      · simp only [Bool.not_eq_true] at hexp
        simp [hfind, hexp, slabGet_setExpired]
  · exact Or.inl hr

/-- Helper: the live-session part of the C4 claim, for a single call of
`kill_connection`. -/
theorem kill_connection_live (st : HostState) (token : Nat) (remote : Bool) :
    ((kill_connection st token remote).toDisconnect ≠ [] →
      ∃ s, slabGet st.sessions token = some s ∧ s.ready = true ∧ s.expired = false) ∧
    (st.handlers.Nodup → (kill_connection st token remote).toDisconnect.Nodup) ∧
    ((kill_connection st token remote).st.numSessions ≠ st.numSessions →
      (kill_connection st token remote).st.numSessions = st.numSessions - 1 ∧
      ∃ s, slabGet st.sessions token = some s ∧ s.ready = true ∧ s.expired = false) := by
  unfold kill_connection
  by_cases hr : FIRST_SESSION ≤ token ∧ token ≤ LAST_SESSION
  · rw [if_pos hr]
    cases hfind : slabGet st.sessions token with
    | none => simp
    | some s =>
      by_cases hexp : s.expired = true
      · simp [hfind, hexp]
      · simp only [Bool.not_eq_true] at hexp
        by_cases hrdy : s.ready = true
        · simp only [hfind, hexp, hrdy, Bool.not_false, Bool.and_self, if_true]
          refine ⟨fun _ => ⟨s, rfl, hrdy, hexp⟩, fun hnd => hnd.filter _, fun _ => ?_⟩
          exact ⟨trivial, ⟨s, rfl, hrdy, hexp⟩⟩
        · simp only [Bool.not_eq_true] at hrdy
          simp [hfind, hexp, hrdy]
  · simp [hr]

/-- Claim C4: `kill_connection` hands out `disconnected` notifications only
for a session that was Ready and not yet expired (with distinct protocols
when the handler registry has no duplicates), decrements `num_sessions` only
in that same situation, and a repeated `kill_connection` on the same token
issues no notification and leaves `num_sessions` unchanged. -/
theorem kill_connection_at_most_once (st : HostState) (token : Nat)
    (remote remote' : Bool) :
    ((kill_connection st token remote).toDisconnect ≠ [] →
      ∃ s, slabGet st.sessions token = some s ∧ s.ready = true ∧ s.expired = false) ∧
    (st.handlers.Nodup → (kill_connection st token remote).toDisconnect.Nodup) ∧
    ((kill_connection st token remote).st.numSessions ≠ st.numSessions →
      (kill_connection st token remote).st.numSessions = st.numSessions - 1 ∧
      ∃ s, slabGet st.sessions token = some s ∧ s.ready = true ∧ s.expired = false) ∧
    (kill_connection (kill_connection st token remote).st token remote').toDisconnect = [] ∧
    (kill_connection (kill_connection st token remote).st token remote').st.numSessions =
      (kill_connection st token remote).st.numSessions := by
  have live := kill_connection_live st token remote
  have second := kill_connection_dead_token (kill_connection st token remote).st token remote'
    (kill_connection_expires st token remote)
  exact ⟨live.1, live.2.1, live.2.2, second.1, second.2⟩

/-- Claim C4 witness: killing the live ready session of `killState` notifies
the `eth` handler once; killing it again notifies nobody and keeps the
counter. -/
theorem kill_connection_at_most_once_witness :
    (∃ s, slabGet killState.sessions 0 = some s ∧ s.ready = true ∧ s.expired = false) ∧
    (kill_connection (kill_connection killState 0 true).st 0 true).toDisconnect = [] ∧
    (kill_connection (kill_connection killState 0 true).st 0 true).st.numSessions =
      (kill_connection killState 0 true).st.numSessions :=
  ⟨(kill_connection_at_most_once killState 0 true true).1 (by decide),
    (kill_connection_at_most_once killState 0 true true).2.2.2.1,
    (kill_connection_at_most_once killState 0 true true).2.2.2.2⟩

/-- Claim C5 (amended): once `stopping` is set, the stream-readable,
stream-writable, timer and message callbacks return immediately as no-ops
with no effect on the host state; the hang-up callback `stream_hup` is NOT
guarded and still processes the event. -/
theorem stopping_noop_callbacks (st : HostState) (inp : EventInputs)
    (h : st.stopping = true) :
    (∀ stream, stream_readable st stream inp = some st) ∧
    (∀ stream, stream_writable st stream = some st) ∧
    (∀ token, timeout st token inp = some st) ∧
    (∀ msg, message st msg = st) := by
  refine ⟨fun stream => ?_, fun stream => ?_, fun token => ?_, fun msg => ?_⟩
  · simp [stream_readable, h]
  · simp [stream_writable, h]
  · simp [timeout, h]
  · simp [message, h]

/-- Claim C5 witness: the guarded callbacks are no-ops on the concrete
stopped host. -/
theorem stopping_noop_callbacks_witness :
    stream_readable stoppedState 0 quietInputs = some stoppedState ∧
    stream_writable stoppedState 0 = some stoppedState ∧
    timeout stoppedState IDLE quietInputs = some stoppedState ∧
    message stoppedState IoMsg.networkStarted = stoppedState :=
  ⟨(stopping_noop_callbacks stoppedState quietInputs rfl).1 0,
    (stopping_noop_callbacks stoppedState quietInputs rfl).2.1 0,
    (stopping_noop_callbacks stoppedState quietInputs rfl).2.2.1 IDLE,
    (stopping_noop_callbacks stoppedState quietInputs rfl).2.2.2 IoMsg.networkStarted⟩

/-- Claim C5 counterexample: a hang-up event delivered after `stop()` is NOT
a no-op — `stream_hup` carries no check of the `stopping` flag, so it still
kills the connection, mutating the session slab (the session is expired),
`num_sessions` and the `NodeTable` (a failure is recorded). -/
theorem stopping_hup_side_effect :
    stoppedState.stopping = true ∧
    (stream_hup stoppedState 0).numSessions ≠ stoppedState.numSessions ∧
    (stream_hup stoppedState 0).sessions ≠ stoppedState.sessions := by
  refine ⟨rfl, ?_, ?_⟩ <;> decide

/-- Claim C6 (amended): `NetworkContext::send` resolves the peer — the
context's own session when the peer id matches, otherwise a slab lookup —
and forwards the packet to `Session::send_packet`; when the peer is absent
it does NOT return an error: it logs, forwards nothing and returns
`Ok(())`. -/
theorem send_resolution (ctx : NetCtx) (peer packetId : Nat) (data : List Nat) :
    (∀ s, ctx.resolve_session peer = some s → s.sendPacketErr = none →
      ctx.send peer packetId data = SendResult.sent s.token ctx.protocol packetId data) ∧
    (∀ s e, ctx.resolve_session peer = some s → s.sendPacketErr = some e →
      ctx.send peer packetId data = SendResult.errored e) ∧
    (ctx.resolve_session peer = none →
      ctx.send peer packetId data = SendResult.peerAbsent ∧
      sendIsOk (ctx.send peer packetId data) = true) := by
  refine ⟨fun s hres herr => ?_, fun s e hres herr => ?_, fun hres => ?_⟩
  · simp [NetCtx.send, hres, herr]
  · simp [NetCtx.send, hres, herr]
  · simp [NetCtx.send, hres, sendIsOk]

/-- Claim C6 witness: a present peer is forwarded to `send_packet`. -/
theorem send_resolution_witness :
    sessionCtx.resolve_session 0 = some readySession ∧
    sessionCtx.send 0 5 [1, 2] = SendResult.sent 0 "eth" 5 [1, 2] :=
  ⟨by decide,
    (send_resolution sessionCtx 0 5 [1, 2]).1 readySession (by decide) rfl⟩

/-- Claim C6 counterexample: sending to a peer that is absent from the slab
does not fail — the call returns `Ok(())` (the claim says it returns an
error). -/
theorem send_absent_peer_ok :
    sessionlessCtx.resolve_session 0 = none ∧
    sessionlessCtx.send 0 1 [] = SendResult.peerAbsent ∧
    sendIsOk (sessionlessCtx.send 0 1 []) = true := by
  refine ⟨rfl, rfl, rfl⟩

/-- Claim C9: for a context built by `NetworkContext::new`, `respond` panics
exactly when the context carries no current session; when a session is
present, `respond` sends the packet to that session (the peer id resolves to
the context's own session) via `send`. -/
theorem respond_panics_iff_no_session (protocol : ProtocolId)
    (session : Option Session) (slab : List Session) (packetId : Nat)
    (data : List Nat) :
    ((NetCtx.new protocol session slab).respond packetId data = none ↔ session = none) ∧
    (∀ s, session = some s →
      (NetCtx.new protocol session slab).respond packetId data =
        some ((NetCtx.new protocol session slab).send s.token packetId data) ∧
      (NetCtx.new protocol session slab).resolve_session s.token = some s) := by
  constructor
  · cases session with
    | none => simp [NetCtx.new, NetCtx.respond]
    | some s => simp [NetCtx.new, NetCtx.respond]
  · intro s hs
    subst hs
    constructor
    · simp [NetCtx.new, NetCtx.respond]
    · simp [NetCtx.new, NetCtx.resolve_session]

/-- Claim C9 witness: responding inside a session callback sends to that
session; outside one it panics. -/
theorem respond_panics_iff_no_session_witness :
    sessionCtx.respond 5 [1] = some (sessionCtx.send 0 5 [1]) ∧
    sessionlessCtx.respond 5 [1] = none :=
  ⟨by
    have h := (respond_panics_iff_no_session "eth" (some readySession) [readySession] 5 [1]).2
      readySession rfl
    exact h.1,
   by
    have h := (respond_panics_iff_no_session "eth" none [] 5 [1]).1
    exact h.mpr rfl⟩

/-- Helper: `toHexFixed` produces exactly `k` characters. -/
theorem toHexFixed_length (k v : Nat) : (toHexFixed k v).length = k := by
  induction k generalizing v with
  | zero => rfl
  | succ k ih => simp [toHexFixed, ih]

/-- Helper: `hexVal` inverts `hexChar` on digits. -/
theorem hexVal_hexChar (d : Nat) (h : d < 16) : hexVal (hexChar d) = some d := by
  interval_cases d <;> decide

/-- Helper: parsing one more trailing character. -/
theorem parseHexChars_append (cs : List Char) (c : Char) :
    parseHexChars (cs ++ [c]) =
      match parseHexChars cs, hexVal c with
      | some a, some d => some (a * 16 + d)
      | _, _ => none := by
  simp [parseHexChars, List.foldl_append]

/-- Helper: decoding inverts fixed-width hex encoding modulo `16 ^ k`. -/
theorem parseHexChars_toHexFixed (k v : Nat) :
    parseHexChars (toHexFixed k v) = some (v % 16 ^ k) := by
  induction k generalizing v with
  | zero => simp [toHexFixed, parseHexChars, Nat.mod_one]
  | succ k ih =>
    rw [toHexFixed, parseHexChars_append, ih,
      hexVal_hexChar (v % 16) (Nat.mod_lt v (by norm_num))]
    have h16 : (16 : Nat) ^ (k + 1) = 16 * 16 ^ k := by
      rw [pow_succ, Nat.mul_comm]
    rw [h16, Nat.mod_mul]
    simp [Nat.mul_comm, Nat.add_comm]

/-- Claim C8: for every 256-bit secret and writable directory, `load_key`
after `save_key` returns the secret: `save_key` writes the 64-character
lowercase hex encoding to `<path>/key`, which round-trips through
`Secret::from_str`. -/
theorem key_roundtrip (fs : Fs) (path : List String) (s : Nat)
    (h : s < 2 ^ 256) :
    load_key (save_key fs path s) path = some s := by
  have hlen : (secretHex s).data.length = 64 := by
    simp [secretHex, toHexFixed_length]
  have hparse : parseHexChars (secretHex s).data = some s := by
    have := parseHexChars_toHexFixed 64 s
    have hpow : (16 : Nat) ^ 64 = 2 ^ 256 := by norm_num
    rw [hpow] at this
    rw [Nat.mod_eq_of_lt h] at this
    simpa [secretHex] using this
  simp [load_key, save_key, fsWrite, secretFromStr, hlen, hparse]

/-- Claim C8 witness: the round trip at a concrete secret and path. -/
theorem key_roundtrip_witness :
    5 < 2 ^ 256 ∧ load_key (save_key (fun _ => none) ["cfg"] 5) ["cfg"] = some 5 :=
  ⟨by norm_num, key_roundtrip (fun _ => none) ["cfg"] 5 (by norm_num)⟩

/-- Helper: registering boot nodes never touches the discovery field. -/
theorem foldl_boot_discovery (l : List Node) (st : HostState) :
    (l.foldl (fun st n => { st with nodeTable := add_node st.nodeTable n }) st).discovery =
      st.discovery := by
  induction l generalizing st with
  | nil => rfl
  | cons h t ih => simp [List.foldl_cons, ih]

/-- Helper: registering reserved nodes never touches the discovery field. -/
theorem foldl_reserved_discovery (l : List Node) (st : HostState) :
    (l.foldl add_reserved_node st).discovery = st.discovery := by
  induction l generalizing st with
  | nil => rfl
  | cons h t ih => simp [List.foldl_cons, ih, add_reserved_node]

/-- Claim C7: `Host::new` never creates Discovery; `init_public_interface`
(on a host whose public endpoint is not yet known) creates it exactly when
`discovery_enabled` holds and `non_reserved_mode` is not `Deny` — in which
case the public endpoint is known afterwards — and when it does not create
Discovery, none of the discovery stream/timer registrations is issued. -/
theorem discovery_instantiation (config : HostConfig) (le : NodeEndpoint)
    (st : HostState) (selected : SocketAddr) (natResult : Option NodeEndpoint)
    (hpub : st.publicEndpoint = none) (hdisc : st.discovery = none) :
    (host_new config le).discovery = none ∧
    (((init_public_interface st selected natResult).1.discovery.isSome = true) ↔
      (st.discoveryEnabled = true ∧ st.nonReservedMode ≠ NonReservedPeerMode.deny)) ∧
    ((init_public_interface st selected natResult).1.discovery.isSome = true →
      (init_public_interface st selected natResult).1.publicEndpoint.isSome = true) ∧
    ((init_public_interface st selected natResult).1.discovery = none →
      ∀ d, Registration.stream DISCOVERY ∉ (init_public_interface st selected natResult).2 ∧
        Registration.timer DISCOVERY_REFRESH d ∉ (init_public_interface st selected natResult).2 ∧
        Registration.timer DISCOVERY_ROUND d ∉ (init_public_interface st selected natResult).2) := by
  have hmode : ∀ m : NonReservedPeerMode,
      (m = NonReservedPeerMode.accept) ↔ (m ≠ NonReservedPeerMode.deny) := by
    intro m
    cases m <;> simp
  refine ⟨?_, ?_, ?_, ?_⟩
  · show (host_new config le).discovery = none
    unfold host_new
    rw [foldl_reserved_discovery, foldl_boot_discovery]
  · rw [← hmode st.nonReservedMode]
    by_cases hcond :
        st.discoveryEnabled = true ∧ st.nonReservedMode = NonReservedPeerMode.accept
    · simp [init_public_interface, hpub, hcond]
    · simp only [init_public_interface, hpub, Option.isSome_none, Bool.false_eq_true,
        if_false]
      simp [hcond, hdisc]
  · by_cases hcond :
        st.discoveryEnabled = true ∧ st.nonReservedMode = NonReservedPeerMode.accept
    · simp [init_public_interface, hpub, hcond]
    · simp [init_public_interface, hpub, hcond, hdisc]
  · by_cases hcond :
        st.discoveryEnabled = true ∧ st.nonReservedMode = NonReservedPeerMode.accept
    · simp [init_public_interface, hpub, hcond]
    · intro _ d
      simp only [init_public_interface, hpub, hcond]
      refine ⟨?_, ?_, ?_⟩ <;>
        simp [DISCOVERY, DISCOVERY_REFRESH, DISCOVERY_ROUND, NODE_TABLE, TCP_ACCEPT,
          SYS_TIMER, LAST_SESSION, FIRST_SESSION, MAX_SESSIONS, MAX_HANDSHAKES]

/-- Claim C7 witness: on a fresh default host, Discovery is created by
`init_public_interface` (Accept mode, discovery enabled), and on the same
host in Deny mode it is not. -/
theorem discovery_instantiation_witness :
    (host_new ⟨[], [], 25, 50, NonReservedPeerMode.accept, true, true, none⟩
      ⟨⟨0, 30304⟩, 30304⟩).discovery = none ∧
    (init_public_interface baseState ⟨5, 30304⟩ none).1.discovery.isSome = true :=
  ⟨(discovery_instantiation ⟨[], [], 25, 50, NonReservedPeerMode.accept, true, true, none⟩
      ⟨⟨0, 30304⟩, 30304⟩ baseState ⟨5, 30304⟩ none rfl rfl).1,
    ((discovery_instantiation ⟨[], [], 25, 50, NonReservedPeerMode.accept, true, true, none⟩
      ⟨⟨0, 30304⟩, 30304⟩ baseState ⟨5, 30304⟩ none rfl rfl).2.1).mpr (by decide)⟩

/-- Claim C2: when an inbound session transitions to Ready, if the session
count (including the new session) has reached `max_peers` or the mode is
`Deny`, and the peer is not reserved, the session is disconnected with
`TooManyPeers` and nothing is learned; otherwise the peer's `NodeEntry`
(remote address, with the discovery port defaulting to the TCP port) is
inserted into the `NodeTable` and into Discovery. -/
theorem inbound_ready_admission (st : HostState) (token : Nat) (s : Session)
    (id : NodeId) (addr : SocketAddr)
    (hs : slabGet st.sessions token = some s)
    (horig : s.originated = false)
    (hid : s.sid = some id)
    (haddr : s.remoteAddr = some addr) :
    (((st.numSessions + 1 ≥ st.maxPeers ∨ st.nonReservedMode = NonReservedPeerMode.deny) ∧
        id ∉ st.reserved) →
      ∃ out, session_readable st token [SessionResult.ready] = some out ∧
        out.disconnectSent = some DisconnectReason.tooManyPeers ∧
        out.st.nodeTable = st.nodeTable ∧
        out.st.discovery = st.discovery ∧
        out.readyCalls = []) ∧
    ((¬(st.numSessions + 1 ≥ st.maxPeers ∨ st.nonReservedMode = NonReservedPeerMode.deny) ∨
        id ∈ st.reserved) →
      ∃ out, session_readable st token [SessionResult.ready] = some out ∧
        out.disconnectSent = none ∧
        out.st.nodeTable = add_node st.nodeTable (Node.new id ⟨addr, addr.port⟩) ∧
        out.st.discovery =
          st.discovery.map (fun d => discovery_add_node d ⟨id, ⟨addr, addr.port⟩⟩)) := by
  constructor
  · rintro ⟨hcond, hnotres⟩
    simp [session_readable, hs, readLoop, horig, hid, haddr, hcond, hnotres]
  · intro hok
    rcases hok with hnc | hres
    · simp [session_readable, hs, readLoop, horig, hid, haddr, hnc, deliverPackets]
    · by_cases hcond :
          st.numSessions + 1 ≥ st.maxPeers ∨ st.nonReservedMode = NonReservedPeerMode.deny
      · simp [session_readable, hs, readLoop, horig, hid, haddr, hcond, hres,
          deliverPackets]
      · simp [session_readable, hs, readLoop, horig, hid, haddr, hcond, deliverPackets]

/-- Claim C2 witness: the learn branch at the concrete Accept-mode host —
node 9 is inserted into the table and into Discovery. -/
theorem inbound_ready_admission_witness :
    ∃ out, session_readable acceptState 3 [SessionResult.ready] = some out ∧
      out.disconnectSent = none ∧
      out.st.nodeTable = add_node acceptState.nodeTable (Node.new 9 ⟨⟨77, 3030⟩, 3030⟩) ∧
      out.st.discovery =
        acceptState.discovery.map
          (fun d => discovery_add_node d ⟨9, ⟨⟨77, 3030⟩, 3030⟩⟩) :=
  (inbound_ready_admission acceptState 3 inboundSession 9 ⟨77, 3030⟩ rfl rfl rfl rfl).2
    (Or.inl (by decide))

/-- Claim C10: for a packet delivered with a registered handler, the payload
forwarded to the handler's `read` callback is exactly `data[1..]`; this
requires `data` to be non-empty — on a packet with empty data the slice
`&data[1..]` panics in `session_readable`. -/
theorem packet_payload_forwarding (st : HostState) (token : Nat) (s : Session)
    (protocol : ProtocolId) (pid : Nat) (data : List Nat)
    (hs : slabGet st.sessions token = some s)
    (hp : protocol ∈ st.handlers) :
    (data ≠ [] →
      session_readable st token [SessionResult.packet protocol pid data] =
        some ⟨st, [], [(protocol, pid, data.drop 1)], none, false⟩) ∧
    (data = [] →
      session_readable st token [SessionResult.packet protocol pid data] = none) := by
  constructor
  · intro hne
    have h1 : 1 ≤ data.length := by
      cases data with
      | nil => exact absurd rfl hne
      | cons a t => simp
    simp [session_readable, hs, readLoop, hp, deliverPackets, sliceFrom, h1]
  · intro he
    subst he
    simp [session_readable, hs, readLoop, hp, deliverPackets, sliceFrom]

/-- Claim C10 witness: the payload of a concrete three-byte packet is its
last two bytes; the concrete empty packet panics. -/
theorem packet_payload_forwarding_witness :
    session_readable acceptState 3 [SessionResult.packet "eth" 5 [0, 1, 2]] =
      some ⟨acceptState, [], [("eth", 5, [1, 2])], none, false⟩ ∧
    session_readable acceptState 3 [SessionResult.packet "eth" 5 []] = none :=
  ⟨by
    have h := (packet_payload_forwarding acceptState 3 inboundSession "eth" 5 [0, 1, 2]
      rfl (by decide)).1 (by decide)
    simpa using h,
   (packet_payload_forwarding acceptState 3 inboundSession "eth" 5 []
      rfl (by decide)).2 rfl⟩

end ParityHost
